import Mathlib

/-!
Verification development for the soul_backend repository.

The definitions below are a shallow embedding of the repository's core:
the generic controller/service error-propagation layer
(`src/helpers/controller.ts`, `src/helpers/service.ts`), the fuzzy
paginated search (`Controller.paginatedSearch` / `Service.paginatedSearch`),
the export surface (`Controller.exportAsCsv/Json/Xlsx/Pdf`,
`Service.export`), and the order-fulfillment workflow
(`Service.createOrder` in `src/services/order.ts`, post-migration
version).  JavaScript numbers are modelled as `ℚ`, JS objects used as
records/predicates as association lists from field name to value, and
the database as an explicit state threaded through `createOrder`.
-/

namespace SoulBackend

/-! ## Generic error propagation (controller.ts / service.ts)

Every controller and service method wraps its body in
`try ... catch (error) { if (!error.statusCode) error.statusCode = tag; throw error; }`.
`JsError` models a thrown JS error: a message plus the optional
`statusCode` property (a string in this layer, e.g. `'500'`). -/

structure JsError where
  message : String
  statusCode : Option String
deriving DecidableEq, Repr

/-- The catch-block body shared by every method:
`if (!error.statusCode) error.statusCode = tag; throw error;`. -/
def tagIfUntagged (tag : String) (e : JsError) : JsError :=
  match e.statusCode with
  | some _ => e
  | none => { e with statusCode := some tag }

/-- The nine repository operations exposed by the generic CRUD surface
(controller.ts methods and their service.ts wrappers). -/
inductive RepoOp
  | create
  | getById
  | find
  | search
  | count
  | update
  | updateMany
  | delete
  | deleteMany
deriving DecidableEq, Repr

/-- The default tag each controller method's catch block assigns to an
untagged failure.  Every method uses `'500'` except `Controller.getById`,
whose catch block reads `if (!error.statusCode) error.statusCode = '404'`. -/
def controllerCatchTag : RepoOp → String
  | .getById => "404"
  | _ => "500"

/-- A storage-layer failure passing through the controller method for
`op`: the catch block tags it with the method's default if untagged and
rethrows. -/
def controllerPropagate (op : RepoOp) (e : JsError) : JsError :=
  tagIfUntagged (controllerCatchTag op) e

/-- The service-layer wrapper's catch block: every service method uses
`if (!error.statusCode) error.statusCode = '500'`. -/
def servicePropagate (e : JsError) : JsError :=
  tagIfUntagged "500" e

/-- A storage-layer failure as the route-level caller observes it: it
passes through the controller method's catch block and then the service
wrapper's catch block. -/
def repoPropagate (op : RepoOp) (e : JsError) : JsError :=
  servicePropagate (controllerPropagate op e)

/-! ## Records, predicates, substring matching

Prisma rows and request predicates are JS objects; both are modelled as
association lists from field name to (string) value. -/

/-- A database row: field name to value. -/
abbrev Rec := List (String × String)

/-- A request predicate: field name to value. -/
abbrev Query := List (String × String)

/-- Reading field `k` of row `r` (absent fields read as `""`). -/
def getField (r : Rec) (k : String) : String :=
  (r.lookup k).getD ""

/-- Helper: `isPrefixB pat s` means `pat` is a prefix of `s` (on character lists). -/
def isPrefixB : List Char → List Char → Bool
  | [], _ => true
  | _ :: _, [] => false
  | a :: as, b :: bs => a == b && isPrefixB as bs

/-- Helper: `infixB pat s` means `pat` occurs contiguously inside `s`. -/
def infixB : List Char → List Char → Bool
  | pat, [] => pat.isEmpty
  | pat, c :: rest => isPrefixB pat (c :: rest) || infixB pat rest

/-- Prisma's `contains` string filter: `pat` is a substring of `s`. -/
def strContains (s pat : String) : Bool :=
  infixB pat.toList s.toList

/-- The `where` argument handed to the storage collaborator: either the
predicate object itself (exact, AND-combined equality) or the
`{ OR: [...] }` contains-object built by `paginatedSearch`. -/
inductive WhereClause
  | direct (q : Query)
  | orContains (q : Query)

/-- The where construction of `Controller.paginatedSearch`:
`Object.keys(query).length !== 0 ? { OR: keys.map(k => ({ [k]: { contains: query[k] } })) } : query`. -/
def buildFuzzyWhere (q : Query) : WhereClause :=
  if q.length ≠ 0 then .orContains q else .direct q

/-- Evaluation of a where clause on one row: `direct` is AND-combined
field equality, `orContains` is OR-combined substring matching. -/
def matchesWhere : WhereClause → Rec → Bool
  | .direct q, r => q.all fun kv => getField r kv.1 == kv.2
  | .orContains q, r => q.any fun kv => strContains (getField r kv.1) kv.2

/-- Model of `collection.findMany({ where, take, skip })`: filter the table in
its stored order, skip `skip` rows, return at most `take` rows. -/
def findManyRows (db : List Rec) (w : WhereClause) (takeN skipN : ℕ) : List Rec :=
  ((db.filter (matchesWhere w)).drop skipN).take takeN

/-- Model of `collection.count({ where })`. -/
def countWhere (db : List Rec) (w : WhereClause) : ℕ :=
  (db.filter (matchesWhere w)).length

/-- The result object of `Controller.paginatedSearch`. -/
structure PageResult where
  record : List Rec
  count : ℕ
  items : ℕ
  pages : ℕ
  currentPage : ℕ
deriving DecidableEq, Repr

/-- JS `Math.ceil(a / b)` for naturals (as used on nonnegative counts). -/
def jsCeilDiv (a b : ℕ) : ℕ :=
  (a + b - 1) / b

/-- Model of `Controller.paginatedSearch(query, { take, skip })`: builds the fuzzy
where clause, fetches the page window, the filtered count and the table
count, then `pages = Math.ceil(items / (options?.take || 10))` and
`currentPage = Math.floor(options.skip / options.take) + 1`.
(`take = 0` stands for a falsy `options.take`; the claims under proof
only concern `take > 0`.) -/
def ctrlPaginatedSearch (db : List Rec) (q : Query) (takeN skipN : ℕ) : PageResult :=
  let w := buildFuzzyWhere q
  { record := findManyRows db w takeN skipN
    count := countWhere db w
    items := db.length
    pages := jsCeilDiv db.length (if takeN = 0 then 10 else takeN)
    currentPage := skipN / takeN + 1 }

/-- Model of `Service.paginatedSearch(query, { page, take })`: passes
`take = options.take || 10` and
`skip = ((options.page || 1) - 1) * (options.take || 10)` down to the
controller (`page = 0` / `takeN = 0` stand for falsy inputs). -/
def svcPaginatedSearch (db : List Rec) (q : Query) (page takeN : ℕ) : PageResult :=
  let t := if takeN = 0 then 10 else takeN
  let p := if page = 0 then 1 else page
  ctrlPaginatedSearch db q t ((p - 1) * t)

/-! ## Order workflow (src/services/order.ts, post-migration)

Monetary amounts and JS numbers in the payload are modelled as `ℚ`.
The storage collaborator is modelled as an explicit `Db` state holding
the `Order` and `OrderedProducts` tables and the next generated id;
`createOrder` threads it and returns it unchanged on a validation
failure (every validation throw happens before any storage write). -/

/-- One entry of the cart payload (`Type.body['items']`). -/
structure CartItem where
  productId : ℕ
  title : String
  price : ℚ
  quantity : ℚ
deriving DecidableEq, Repr

/-- The `createOrder` request payload (`src/types/order.ts`).  A payload
whose `items` field is absent behaves exactly as an empty array in the
`!data.items || data.items.length === 0` guard and is modelled as `[]`. -/
structure OrderBody where
  customerName : String
  customerEmail : String
  items : List CartItem
  totalAmount : ℚ
deriving DecidableEq, Repr

/-- Modelled from the spec: the Prisma `Code` model declaration
(`prisma/schema.prisma`) is not in the repository snapshot.  Fields
follow §3 "AccessCode": identifier, unique code string, discount, and
the assignment label — the label is the field the order service reads
as `code.role` when attaching it to an order, so it keeps that name. -/
structure Code where
  id : ℕ
  code : String
  discount : ℚ
  role : String
deriving DecidableEq, Repr

/-- A persisted `Order` header row (fields exactly as written by
`super.create` in `createOrder`; payment metadata is nullable). -/
structure Order where
  id : ℕ
  customerName : String
  customerEmail : String
  cardNumber : Option String
  expiry : Option String
  cvv : Option String
  phoneNumber : Option String
  paymentMethod : Option String
  code : String
  totalAmount : ℚ
  assignedTo : String
deriving DecidableEq, Repr

/-- A persisted `OrderedProducts` line-item row, as written by
`Controller.linkProducts` (`orderId`, `productId`, `quantity` only). -/
structure OrderedProduct where
  orderId : ℕ
  productId : ℕ
  quantity : ℚ
deriving DecidableEq, Repr

/-- The storage collaborator's state: the two order tables plus the
next generated identifier. -/
structure Db where
  orders : List Order
  orderedProducts : List OrderedProduct
  nextId : ℕ
deriving DecidableEq, Repr

/-- An error thrown by the order workflow:
`new Error(message)` with `error.statusCode = 400`. -/
structure OrderError where
  message : String
  statusCode : ℕ
deriving DecidableEq, Repr

/-- The quantity guard of `createOrder`:
`Number.isInteger(item.quantity) && !(item.quantity < 1)`
(an integer-valued number that is at least 1). -/
def isPositiveInteger (q : ℚ) : Bool :=
  q.den == 1 && 1 ≤ q

/-- Model of `Number.prototype.toFixed(2)` on a nonnegative number: round the
value to the nearest hundredth (ties upward) and print two decimals. -/
def toFixed2 (q : ℚ) : String :=
  let n := (⌊q * 100 + 1 / 2⌋).toNat
  let cents := n % 100
  toString (n / 100) ++ "." ++
    (if cents < 10 then "0" ++ toString cents else toString cents)

/-- The `TotalMismatchError` message built by `createOrder`:
  `` `Total amount mismatch. Expected €${calculatedTotal.toFixed(2)}, received €${data.totalAmount.toFixed(2)}` ``. -/
def totalMismatchMessage (calculated received : ℚ) : String :=
  "Total amount mismatch. Expected €" ++ toFixed2 calculated ++
    ", received €" ++ toFixed2 received

/-- Model of `data.items.reduce((total, item) => total + item.price * item.quantity, 0)`. -/
def calculatedTotal (items : List CartItem) : ℚ :=
  items.foldl (fun total item => total + item.price * item.quantity) 0

/-- Source: `const tolerance = 0.01`. -/
def tolerance : ℚ := 1 / 100

/-- Model of `Service.createOrder(data, code)`: the three validation guards in
source order, then `super.create` of the order header (payment fields
null, `code` and `assignedTo` from the authenticated code), then
`Controller.linkProducts` bulk-inserts the line items keyed by the new
order id.  The pair returned is the created order (the source re-reads
it by id before returning) together with the storage state after the
call; validation failures leave the state untouched. -/
def createOrder (data : OrderBody) (code : Code) (db : Db) :
    Except OrderError Order × Db :=
  if data.items.length = 0 then
    (.error ⟨"Cart cannot be empty", 400⟩, db)
  else if data.items.any (fun item => !isPositiveInteger item.quantity) then
    (.error ⟨"All quantities must be positive integers", 400⟩, db)
  else if |calculatedTotal data.items - data.totalAmount| > tolerance then
    (.error ⟨totalMismatchMessage (calculatedTotal data.items) data.totalAmount, 400⟩, db)
  else
      let order : Order :=
        { id := db.nextId
          customerName := data.customerName
          customerEmail := data.customerEmail
          cardNumber := none
          expiry := none
          cvv := none
          phoneNumber := none
          paymentMethod := none
          code := code.code
          totalAmount := data.totalAmount
          assignedTo := code.role }
      let db1 : Db :=
        { db with orders := db.orders ++ [order], nextId := db.nextId + 1 }
      let db2 : Db :=
        { db1 with
          orderedProducts := db1.orderedProducts ++
            data.items.map fun item => ⟨order.id, item.productId, item.quantity⟩ }
      (.ok order, db2)

/-! ## Export surface (controller.ts exportAsCsv/Json/Xlsx/Pdf, service.ts export) -/

/-- The three fields omitted by default in every export fetch:
`const defaultOmit = { id: true, createdAt: true, updatedAt: true }`. -/
def defaultOmitFields : List String := ["id", "createdAt", "updatedAt"]

/-- The merged omission map `{ ...defaultOmit, ...options?.omit }`:
a caller-supplied entry for a field overrides the default. -/
def effectiveOmit (userOmit : List (String × Bool)) (k : String) : Bool :=
  match userOmit.lookup k with
  | some b => b
  | none => defaultOmitFields.contains k

/-- Prisma's `omit`: drop every field whose effective omission is true. -/
def applyOmit (userOmit : List (String × Bool)) (r : Rec) : Rec :=
  r.filter fun kv => !effectiveOmit userOmit kv.1

/-- Evaluation of `where: { ...query }` on a plain predicate: AND-combined equality. -/
def matchesDirect (q : Query) (r : Rec) : Bool :=
  q.all fun kv => getField r kv.1 == kv.2

/-- The export options object (`take?`, `skip?`, `omit?`; `none` models
an absent property — Prisma then applies no limit / a zero offset). -/
structure ExportOptions where
  takeN : Option ℕ
  skipN : Option ℕ
  omits : List (String × Bool)
deriving Repr

/-- The shared fetch of every exporter:
`collection.findMany({ where: { ...query }, ...options, omit: { ...defaultOmit, ...options?.omit } })`. -/
def fetchForExport (db : List Rec) (q : Query) (o : ExportOptions) : List Rec :=
  let filtered := db.filter (matchesDirect q)
  let afterSkip := filtered.drop (o.skipN.getD 0)
  let limited := match o.takeN with
    | some t => afterSkip.take t
    | none => afterSkip
  limited.map (applyOmit o.omits)

/-- The serialized document handed to the reply (the byte-level
rendering of each format is I/O out of scope; the constructor records
which serializer ran and on which rows). -/
inductive ExportDoc
  | csv (rows : List Rec)
  | json (rows : List Rec)
  | xlsx (sheetName : String) (rows : List Rec)
  | pdf (rows : List Rec)
deriving DecidableEq, Repr

/-- The reply produced by a successful export: content type, the
`attachment; filename=...` name, and the document. -/
structure ExportOut where
  contentType : String
  filename : String
  doc : ExportDoc
deriving DecidableEq, Repr

/-- The failure each exporter throws on an empty result set:
`new Error('No data to export')`, untagged, which the exporter's own
catch block then tags `'500'`. -/
def noDataError : JsError := ⟨"No data to export", some "500"⟩

/-- Model of `Controller.exportAsCsv`. -/
def exportAsCsv (name : String) (db : List Rec) (q : Query) (o : ExportOptions) :
    Except JsError ExportOut :=
  let data := fetchForExport db q o
  if data.length = 0 then .error noDataError
  else .ok ⟨"text/csv", name ++ ".csv", .csv data⟩

/-- Model of `Controller.exportAsJson` (body `JSON.stringify(data, null, 2)`). -/
def exportAsJson (name : String) (db : List Rec) (q : Query) (o : ExportOptions) :
    Except JsError ExportOut :=
  let data := fetchForExport db q o
  if data.length = 0 then .error noDataError
  else .ok ⟨"application/json", name ++ ".json", .json data⟩

/-- Model of `Controller.exportAsXlsx` (single worksheet named after the entity). -/
def exportAsXlsx (name : String) (db : List Rec) (q : Query) (o : ExportOptions) :
    Except JsError ExportOut :=
  let data := fetchForExport db q o
  if data.length = 0 then .error noDataError
  else .ok ⟨"application/vnd.openxmlformats-officedocument.spreadsheetml.sheet",
    name ++ ".xlsx", .xlsx name data⟩

/-- Model of `Controller.exportAsPdf`. -/
def exportAsPdf (name : String) (db : List Rec) (q : Query) (o : ExportOptions) :
    Except JsError ExportOut :=
  let data := fetchForExport db q o
  if data.length = 0 then .error noDataError
  else .ok ⟨"application/pdf", name ++ ".pdf", .pdf data⟩

/-- Model of `Service.export(format, reply, query, options)`: the switch over the
format string; the default branch throws
`new Error('Unspecified format.')` with `statusCode = '400'` before any
exporter runs. -/
def exportDispatch (name fmt : String) (db : List Rec) (q : Query) (o : ExportOptions) :
    Except JsError ExportOut :=
  if fmt = "pdf" then exportAsPdf name db q o
  else if fmt = "json" then exportAsJson name db q o
  else if fmt = "csv" then exportAsCsv name db q o
  else if fmt = "xlsx" then exportAsXlsx name db q o
  else .error ⟨"Unspecified format.", some "400"⟩

/-! ## Concrete fixtures (used by the witness theorems) -/

/-- The cart item of §8 Scenario A/B: price 29.99, quantity 2. -/
def itemA : CartItem := ⟨1, "Test Game", 2999 / 100, 2⟩

/-- An authenticated access code. -/
def codeA : Code := ⟨1, "ABC123", 0, "Admin"⟩

/-- An empty storage state whose next generated id is 1. -/
def db0 : Db := ⟨[], [], 1⟩

/-- Scenario B payload: one `itemA`, claimed total 50.00. -/
def bodyMismatch : OrderBody := ⟨"Test User", "test@example.com", [itemA], 50⟩

/-- Scenario A payload: one `itemA`, claimed total 59.98. -/
def bodyOk : OrderBody := ⟨"Test User", "test@example.com", [itemA], 5998 / 100⟩

/-- Scenario C payload: empty cart. -/
def bodyEmpty : OrderBody := ⟨"Test User", "test@example.com", [], 0⟩

/-- The order header `createOrder bodyOk codeA db0` persists. -/
def orderOk : Order :=
  ⟨1, "Test User", "test@example.com", none, none, none, none, none,
    "ABC123", 5998 / 100, "Admin"⟩

/-- The storage state after `createOrder bodyOk codeA db0`. -/
def dbOk : Db := ⟨[orderOk], [⟨1, 1, 2⟩], 2⟩

/-- Two sample rows and a one-field predicate for the search claims. -/
def rowA : Rec := [("id", "1"), ("title", "Elden Ring"), ("genre", "RPG")]

/-- Second sample row. -/
def rowB : Rec := [("id", "2"), ("title", "Celeste"), ("genre", "Platformer")]

/-- A two-row table. -/
def dbRows : List Rec := [rowA, rowB]

/-- A one-field fuzzy predicate. -/
def qTitle : Query := [("title", "el")]

/-- Export options with every property absent. -/
def optsNone : ExportOptions := ⟨none, none, []⟩

/-! ## Theorems -/

/-- C4 (counterexample): the claim "untagged failures default to
`InternalError` (500) uniformly, including `getById`" is false — an
untagged storage failure propagated through `getById` carries tag
`'404'`, not `'500'`. -/
theorem repoPropagate_getById_not_500 :
    ¬ (repoPropagate .getById ⟨"storage failure", none⟩).statusCode = some "500" := by
  decide

/-- C4 (amended): every repository operation propagates a storage-layer
failure with its message intact; an already-tagged failure keeps its
tag, and an untagged one is tagged with the operation's controller
default — `'404'` for `getById`, `'500'` for every other operation —
which the service-layer wrapper then preserves. -/
theorem repoPropagate_spec (op : RepoOp) (e : JsError) :
    repoPropagate op e =
      ⟨e.message, some (e.statusCode.getD (controllerCatchTag op))⟩ := by
  obtain ⟨m, s⟩ := e
  cases s <;>
    simp [repoPropagate, controllerPropagate, servicePropagate, tagIfUntagged]

/-- C2: a payload whose `items` array is absent or empty makes
`createOrder` fail with the `EmptyCartError` ("Cart cannot be empty",
status 400), and the storage state is returned unchanged — no Order
header and no OrderLineItem is persisted. -/
theorem createOrder_empty_cart (data : OrderBody) (code : Code) (db : Db)
    (h : data.items = []) :
    createOrder data code db = (.error ⟨"Cart cannot be empty", 400⟩, db) := by
  simp [createOrder, h]

/-- C2 witness: Scenario C at a concrete empty-cart payload. -/
theorem createOrder_empty_cart_witness :
    createOrder bodyEmpty codeA db0 = (.error ⟨"Cart cannot be empty", 400⟩, db0) :=
  createOrder_empty_cart bodyEmpty codeA db0 rfl

/-- Evaluation of the concrete Scenario A run: the cart passes all
three guards (one item, quantity 2, claimed total 59.98 = 29.99 × 2)
and persists `orderOk`. -/
theorem createOrder_bodyOk_run :
    createOrder bodyOk codeA db0 = (.ok orderOk, dbOk) := by
  have h2 : isPositiveInteger (2 : ℚ) = true := by
    simp [isPositiveInteger]
  have h3 : calculatedTotal bodyOk.items = 5998 / 100 := by
    norm_num [calculatedTotal, bodyOk, itemA]
  unfold createOrder
  rw [if_neg (by simp [bodyOk]), if_neg (by simp [bodyOk, itemA, h2]),
    if_neg (by rw [h3]; norm_num [bodyOk, tolerance])]
  rfl

/-- C3: every successful `createOrder` run persists exactly one new
Order header, whose `assignedTo` is copied from the authenticated
code's assignment label (the `role` field the order service reads) and
whose `code` is the code's value. -/
theorem createOrder_assignedTo_code (data : OrderBody) (code : Code) (db : Db)
    (order : Order) (db' : Db)
    (h : createOrder data code db = (.ok order, db')) :
    order.assignedTo = code.role ∧ order.code = code.code ∧
      db'.orders = db.orders ++ [order] := by
  unfold createOrder at h
  split_ifs at h with h1 h2 h3
  · exact absurd (congrArg Prod.fst h) (by simp)
  · exact absurd (congrArg Prod.fst h) (by simp)
  · exact absurd (congrArg Prod.fst h) (by simp)
  · simp only [Prod.mk.injEq, Except.ok.injEq] at h
    obtain ⟨h4, h5⟩ := h
    subst h4
    subst h5
    exact ⟨rfl, rfl, rfl⟩

/-- C3 witness: the concrete Scenario A run persists `orderOk`, whose
`assignedTo` and `code` come from `codeA`. -/
theorem createOrder_assignedTo_code_witness :
    orderOk.assignedTo = codeA.role ∧ orderOk.code = codeA.code ∧
      dbOk.orders = db0.orders ++ [orderOk] :=
  createOrder_assignedTo_code bodyOk codeA db0 orderOk dbOk createOrder_bodyOk_run

/-- C10: every successful `createOrder` run persists the Order header
with all five payment-metadata fields null, whatever the payload held —
the header written is the new order and its payment fields are `none`. -/
theorem createOrder_payment_fields_null (data : OrderBody) (code : Code) (db : Db)
    (order : Order) (db' : Db)
    (h : createOrder data code db = (.ok order, db')) :
    db'.orders = db.orders ++ [order] ∧
      order.cardNumber = none ∧ order.expiry = none ∧ order.cvv = none ∧
      order.phoneNumber = none ∧ order.paymentMethod = none := by
  unfold createOrder at h
  split_ifs at h with h1 h2 h3
  · exact absurd (congrArg Prod.fst h) (by simp)
  · exact absurd (congrArg Prod.fst h) (by simp)
  · exact absurd (congrArg Prod.fst h) (by simp)
  · simp only [Prod.mk.injEq, Except.ok.injEq] at h
    obtain ⟨h4, h5⟩ := h
    subst h4
    subst h5
    exact ⟨rfl, rfl, rfl, rfl, rfl, rfl⟩

/-- C10 witness: the concrete Scenario A run persists `orderOk` with all
payment fields null. -/
theorem createOrder_payment_fields_null_witness :
    dbOk.orders = db0.orders ++ [orderOk] ∧
      orderOk.cardNumber = none ∧ orderOk.expiry = none ∧ orderOk.cvv = none ∧
      orderOk.phoneNumber = none ∧ orderOk.paymentMethod = none :=
  createOrder_payment_fields_null bodyOk codeA db0 orderOk dbOk createOrder_bodyOk_run

/-- The `TotalMismatchError` message can never collide with the
`InvalidQuantityError` message: its fixed parts alone are longer. -/
theorem totalMismatchMessage_ne_invalidQuantity (a b : ℚ) :
    totalMismatchMessage a b ≠ "All quantities must be positive integers" := by
  intro h
  have hlen := congrArg String.length h
  simp only [totalMismatchMessage, String.length_append] at hlen
  rw [(by decide : ("Total amount mismatch. Expected €" : String).length = 33),
    (by decide : (", received €" : String).length = 12),
    (by decide : ("All quantities must be positive integers" : String).length = 40)] at hlen
  omega

/-- C7: on a non-empty cart, `createOrder` fails with the
`InvalidQuantityError` ("All quantities must be positive integers",
status 400) exactly when some item's quantity is zero, negative, or not
an integer — so the check never rejects a cart whose quantities are all
positive integers. -/
theorem createOrder_invalid_quantity_iff (data : OrderBody) (code : Code) (db : Db)
    (hne : data.items ≠ []) :
    (createOrder data code db).1 =
        .error ⟨"All quantities must be positive integers", 400⟩
      ↔ ∃ item ∈ data.items, ¬(item.quantity.den = 1 ∧ 1 ≤ item.quantity) := by
  have hlen : ¬ data.items.length = 0 := by
    simpa [List.length_eq_zero] using hne
  unfold createOrder
  rw [if_neg hlen]
  by_cases hany : (data.items.any fun item => !isPositiveInteger item.quantity) = true
  · rw [if_pos hany]
    simp only [List.any_eq_true, Bool.not_eq_true'] at hany
    constructor
    · intro _
      obtain ⟨item, hmem, hbad⟩ := hany
      refine ⟨item, hmem, ?_⟩
      simpa [isPositiveInteger] using hbad
    · intro _
      rfl
  · rw [if_neg hany]
    simp only [List.any_eq_true, Bool.not_eq_true', not_exists] at hany
    constructor
    · intro hEq
      exfalso
      split_ifs at hEq with hmis
      · simp only [Except.error.injEq, OrderError.mk.injEq] at hEq
        exact totalMismatchMessage_ne_invalidQuantity _ _ hEq.1
    · rintro ⟨item, hmem, hbad⟩
      exfalso
      refine hany item ⟨hmem, ?_⟩
      simpa [isPositiveInteger] using hbad

/-- C7 witness: a one-item cart with quantity 2 is not rejected by the
quantity check (the quantity-error iff instantiated at `bodyOk`). -/
theorem createOrder_invalid_quantity_iff_witness :
    ((createOrder bodyOk codeA db0).1 =
        .error ⟨"All quantities must be positive integers", 400⟩
      ↔ ∃ item ∈ bodyOk.items, ¬(item.quantity.den = 1 ∧ 1 ≤ item.quantity)) :=
  createOrder_invalid_quantity_iff bodyOk codeA db0 (by simp [bodyOk])

/-- C1: on a non-empty cart whose quantities are all positive integers,
`createOrder` fails with the `TotalMismatchError` — whose message embeds
the calculated and claimed totals formatted to two decimals — exactly
when `|Σ price×quantity − claimedTotal| > 0.01`, and proceeds past this
check otherwise. -/
theorem createOrder_total_mismatch_iff (data : OrderBody) (code : Code) (db : Db)
    (hne : data.items ≠ [])
    (hq : ∀ item ∈ data.items, isPositiveInteger item.quantity = true) :
    (createOrder data code db).1 =
        .error ⟨totalMismatchMessage (calculatedTotal data.items) data.totalAmount, 400⟩
      ↔ |calculatedTotal data.items - data.totalAmount| > tolerance := by
  have hlen : ¬ data.items.length = 0 := by
    simpa [List.length_eq_zero] using hne
  have hany : ¬ (data.items.any fun item => !isPositiveInteger item.quantity) = true := by
    simp only [List.any_eq_true, Bool.not_eq_true', not_exists]
    intro item hp
    rw [hq item hp.1] at hp
    exact absurd hp.2 (by simp)
  unfold createOrder
  rw [if_neg hlen, if_neg hany]
  split_ifs with hmis
  · simp [hmis]
  · simp [hmis]

/-- C1 witness: Scenario B — one item at 29.99 × 2, claimed total
50.00 — fails with the exact message
"Total amount mismatch. Expected €59.98, received €50.00". -/
theorem createOrder_total_mismatch_iff_witness :
    (createOrder bodyMismatch codeA db0).1 =
      .error ⟨"Total amount mismatch. Expected €59.98, received €50.00", 400⟩ := by
  have hc : calculatedTotal bodyMismatch.items = 5998 / 100 := by
    norm_num [calculatedTotal, bodyMismatch, itemA]
  have h1 : toFixed2 (5998 / 100) = "59.98" := by
    have hf : (⌊(5998 / 100 : ℚ) * 100 + 1 / 2⌋) = 5998 := by norm_num
    simp only [toFixed2, hf]
    rfl
  have h2 : toFixed2 (50 : ℚ) = "50.00" := by
    have hf : (⌊(50 : ℚ) * 100 + 1 / 2⌋) = 5000 := by norm_num
    simp only [toFixed2, hf]
    rfl
  have hmsg : totalMismatchMessage (calculatedTotal bodyMismatch.items) bodyMismatch.totalAmount
      = "Total amount mismatch. Expected €59.98, received €50.00" := by
    rw [hc]
    show "Total amount mismatch. Expected €" ++ toFixed2 (5998 / 100) ++
      ", received €" ++ toFixed2 (50 : ℚ) = _
    rw [h1, h2]
    rfl
  have h := createOrder_total_mismatch_iff bodyMismatch codeA db0
    (by simp [bodyMismatch])
    (by
      intro item hmem
      simp only [bodyMismatch, List.mem_singleton] at hmem
      subst hmem
      simp [itemA, isPositiveInteger])
  rw [← hmsg]
  refine h.mpr ?_
  rw [hc]
  refine lt_abs.mpr (Or.inl ?_)
  norm_num [bodyMismatch, tolerance]

/-- C9: `Service.export` with a format string outside
`{csv, json, xlsx, pdf}` fails with the 400-tagged
"Unspecified format." error, independently of the data — no exporter
runs — while each of the four supported values dispatches to the
corresponding exporter. -/
theorem export_dispatch_spec (name fmt : String) (db : List Rec) (q : Query)
    (o : ExportOptions) :
    (fmt ∉ (["csv", "json", "xlsx", "pdf"] : List String) →
        exportDispatch name fmt db q o = .error ⟨"Unspecified format.", some "400"⟩)
    ∧ exportDispatch name "csv" db q o = exportAsCsv name db q o
    ∧ exportDispatch name "json" db q o = exportAsJson name db q o
    ∧ exportDispatch name "xlsx" db q o = exportAsXlsx name db q o
    ∧ exportDispatch name "pdf" db q o = exportAsPdf name db q o := by
  refine ⟨?_, ?_, ?_, ?_, ?_⟩
  · intro h
    have h1 : ¬ fmt = "pdf" := fun hh => h (by simp [hh])
    have h2 : ¬ fmt = "json" := fun hh => h (by simp [hh])
    have h3 : ¬ fmt = "csv" := fun hh => h (by simp [hh])
    have h4 : ¬ fmt = "xlsx" := fun hh => h (by simp [hh])
    unfold exportDispatch
    rw [if_neg h1, if_neg h2, if_neg h3, if_neg h4]
  · simp [exportDispatch]
  · simp [exportDispatch]
  · simp [exportDispatch]
  · simp [exportDispatch]

/-- C9 witness: `export` at the unsupported format "xml" fails with the
400-tagged "Unspecified format." error. -/
theorem export_dispatch_spec_witness :
    exportDispatch "Order" "xml" dbRows [] optsNone =
      .error ⟨"Unspecified format.", some "400"⟩ :=
  (export_dispatch_spec "Order" "xml" dbRows [] optsNone).1 (by decide)

/-- The shared shape of every exporter's result: the empty-set error
fires exactly on an empty fetched result. -/
theorem exportResult_noData_iff (data : List Rec) (out : ExportOut) :
    ((if data.length = 0 then (.error noDataError : Except JsError ExportOut)
        else .ok out) = .error noDataError)
      ↔ data = [] := by
  split_ifs with h
  · simp [List.length_eq_zero.mp h]
  · simp only [List.length_eq_zero] at h
    simp [h]

/-- C8: for each supported export format, the export fails with the
`NoDataError` ("No data to export") exactly when the fetched result set
is empty, and the fetched records carry no field whose effective
omission — `id`/`createdAt`/`updatedAt` by default, each overridable
through `options.omit` — is set. -/
theorem export_no_data_and_omit (fmt : String)
    (hf : fmt ∈ (["csv", "json", "xlsx", "pdf"] : List String))
    (name : String) (db : List Rec) (q : Query) (o : ExportOptions) :
    (exportDispatch name fmt db q o = .error noDataError ↔ fetchForExport db q o = [])
    ∧ ∀ r ∈ fetchForExport db q o, ∀ kv ∈ r, effectiveOmit o.omits kv.1 = false := by
  constructor
  · fin_cases hf
    · exact exportResult_noData_iff (fetchForExport db q o) _
    · exact exportResult_noData_iff (fetchForExport db q o) _
    · exact exportResult_noData_iff (fetchForExport db q o) _
    · exact exportResult_noData_iff (fetchForExport db q o) _
  · intro r hr kv hkv
    simp only [fetchForExport, List.mem_map] at hr
    obtain ⟨r', _, rfl⟩ := hr
    simp only [applyOmit, List.mem_filter, Bool.not_eq_true'] at hkv
    exact hkv.2

/-- C8 witness: the csv export over a two-row table with no predicate
and no caller options (the no-data iff and omission property
instantiated there). -/
theorem export_no_data_and_omit_witness :
    ((exportDispatch "Order" "csv" dbRows [] optsNone = .error noDataError
        ↔ fetchForExport dbRows [] optsNone = [])
      ∧ ∀ r ∈ fetchForExport dbRows [] optsNone, ∀ kv ∈ r,
          effectiveOmit optsNone.omits kv.1 = false) :=
  export_no_data_and_omit "csv" (by decide) "Order" dbRows [] optsNone

/-- The page count times the page size covers the table:
`a ≤ jsCeilDiv a t * t` for `t > 0`. -/
theorem le_jsCeilDiv_mul (a t : ℕ) (ht : 0 < t) : a ≤ jsCeilDiv a t * t := by
  unfold jsCeilDiv
  have hdm := Nat.div_add_mod (a + t - 1) t
  have hmod := Nat.mod_lt (a + t - 1) ht
  set c := (a + t - 1) / t with hc
  set m := (a + t - 1) % t with hm
  rw [Nat.mul_comm]
  generalize hP : t * c = P at hdm ⊢
  omega

/-- Arithmetic: `(a + t - 1) / t` is the ceiling of the rational division `a / t`. -/
theorem jsCeilDiv_eq_ceil (a t : ℕ) (ht : 0 < t) :
    jsCeilDiv a t = ⌈(a : ℚ) / (t : ℚ)⌉₊ := by
  rcases Nat.eq_zero_or_pos a with ha | ha
  · subst ha
    simp only [jsCeilDiv, Nat.cast_zero, zero_div, Nat.ceil_zero, Nat.zero_add]
    exact Nat.div_eq_of_lt (by omega)
  · have hne : jsCeilDiv a t ≠ 0 := by
      unfold jsCeilDiv
      exact (Nat.div_pos (by omega) ht).ne'
    symm
    rw [Nat.ceil_eq_iff hne]
    constructor
    · rw [lt_div_iff₀ (by positivity : (0 : ℚ) < (t : ℚ))]
      have hnat : (jsCeilDiv a t - 1) * t < a := by
        unfold jsCeilDiv
        have hd : (a + t - 1) / t * t ≤ a + t - 1 := Nat.div_mul_le_self _ _
        set c := (a + t - 1) / t with hc
        have hsub : (c - 1) * t = c * t - t := by
          cases c with
          | zero => simp
          | succ n => rw [Nat.succ_sub_one, Nat.succ_mul]; omega
        rw [hsub]
        generalize hP : c * t = P at hd ⊢
        omega
      exact_mod_cast hnat
    · rw [div_le_iff₀ (by positivity : (0 : ℚ) < (t : ℚ))]
      exact_mod_cast le_jsCeilDiv_mul a t ht

/-- Concatenating the `take t` windows at offsets `0, t, 2t, …` of a
list reassembles the list, as soon as `n` windows cover its length. -/
theorem chunksJoin {α : Type} (t : ℕ) :
    ∀ (n : ℕ) (l : List α), l.length ≤ n * t →
      (List.range n).flatMap (fun i => (l.drop (i * t)).take t) = l := by
  intro n
  induction n with
  | zero =>
    intro l h
    simp only [Nat.zero_mul, Nat.le_zero] at h
    simp [List.eq_nil_of_length_eq_zero h]
  | succ n ih =>
    intro l h
    rw [List.range_succ_eq_map, List.flatMap_cons, List.flatMap_map]
    simp only [Nat.zero_mul, List.drop_zero]
    have hfun : (fun a => ((l.drop (Nat.succ a * t)).take t)) =
        fun i => (((l.drop t).drop (i * t)).take t) := by
      funext i
      rw [List.drop_drop, Nat.succ_mul, Nat.add_comm]
    rw [hfun, ih (l.drop t) (by
      rw [List.length_drop]
      rw [Nat.succ_mul] at h
      generalize hP : n * t = P at h ⊢
      omega)]
    exact List.take_append_drop t l

/-- C5: for `page ≥ 1` and `take > 0`, `paginatedSearch` filters with
the OR-combined substring filter over every supplied predicate field
(the predicate as-is, matching everything, when empty), windows the
filtered rows at `skip = (page−1)·take`, reports
`pageCount = ⌈totalCount / take⌉` over the unfiltered total, and
`currentPage = ⌊skip / take⌋ + 1 = page`. -/
theorem paginatedSearch_spec (db : List Rec) (q : Query) (page takeN : ℕ)
    (hp : 1 ≤ page) (ht : 0 < takeN) :
    ((q ≠ [] →
        (svcPaginatedSearch db q page takeN).record =
          ((db.filter fun r => q.any fun kv => strContains (getField r kv.1) kv.2).drop
            ((page - 1) * takeN)).take takeN)
      ∧ (q = [] →
        (svcPaginatedSearch db q page takeN).record =
          (db.drop ((page - 1) * takeN)).take takeN)
      ∧ (svcPaginatedSearch db q page takeN).items = db.length
      ∧ (svcPaginatedSearch db q page takeN).pages = ⌈(db.length : ℚ) / (takeN : ℚ)⌉₊
      ∧ (svcPaginatedSearch db q page takeN).currentPage =
          ((page - 1) * takeN) / takeN + 1
      ∧ (svcPaginatedSearch db q page takeN).currentPage = page) := by
  have htne : ¬ takeN = 0 := ht.ne'
  have hpne : ¬ page = 0 := by omega
  refine ⟨?_, ?_, ?_, ?_, ?_, ?_⟩
  · intro hq
    have hqlen : q.length ≠ 0 := fun hh => hq (List.length_eq_zero.mp hh)
    have hm : matchesWhere (.orContains q)
        = fun r => q.any fun kv => strContains (getField r kv.1) kv.2 :=
      funext fun r => rfl
    unfold svcPaginatedSearch ctrlPaginatedSearch findManyRows buildFuzzyWhere
    simp only [if_neg htne, if_neg hpne, if_pos hqlen]
    rw [hm]
  · intro hq
    subst hq
    have hm : matchesWhere (.direct []) = fun _ => true := funext fun r => rfl
    unfold svcPaginatedSearch ctrlPaginatedSearch findManyRows buildFuzzyWhere
    simp only [if_neg htne, if_neg hpne, List.length_nil]
    rw [if_neg (by omega : ¬ (0 : ℕ) ≠ 0), hm, List.filter_true]
  · unfold svcPaginatedSearch ctrlPaginatedSearch
    simp only [if_neg htne, if_neg hpne]
  · unfold svcPaginatedSearch ctrlPaginatedSearch
    simp only [if_neg htne, if_neg hpne]
    exact jsCeilDiv_eq_ceil db.length takeN ht
  · unfold svcPaginatedSearch ctrlPaginatedSearch
    simp only [if_neg htne, if_neg hpne]
  · unfold svcPaginatedSearch ctrlPaginatedSearch
    simp only [if_neg htne, if_neg hpne]
    rw [Nat.mul_div_cancel _ ht]
    omega

/-- C5 witness: the spec instantiated on a two-row table, a one-field
predicate, page 2, page size 1. -/
theorem paginatedSearch_spec_witness :
    ((qTitle ≠ [] →
        (svcPaginatedSearch dbRows qTitle 2 1).record =
          ((dbRows.filter fun r => qTitle.any fun kv => strContains (getField r kv.1) kv.2).drop
            ((2 - 1) * 1)).take 1)
      ∧ (qTitle = [] →
        (svcPaginatedSearch dbRows qTitle 2 1).record =
          (dbRows.drop ((2 - 1) * 1)).take 1)
      ∧ (svcPaginatedSearch dbRows qTitle 2 1).items = dbRows.length
      ∧ (svcPaginatedSearch dbRows qTitle 2 1).pages = ⌈(dbRows.length : ℚ) / (1 : ℚ)⌉₊
      ∧ (svcPaginatedSearch dbRows qTitle 2 1).currentPage = ((2 - 1) * 1) / 1 + 1
      ∧ (svcPaginatedSearch dbRows qTitle 2 1).currentPage = 2) :=
  paginatedSearch_spec dbRows qTitle 2 1 (by decide) (by decide)

/-- C6: with the data unchanged and `take > 0`, the rows returned by
`paginatedSearch` across pages `1..pageCount`, collected without
duplicates, are exactly the full set of rows matching the fuzzified
predicate. -/
theorem paginatedSearch_pages_cover (db : List Rec) (q : Query) (takeN : ℕ)
    (ht : 0 < takeN) :
    ((List.range (svcPaginatedSearch db q 1 takeN).pages).flatMap
        (fun i => (svcPaginatedSearch db q (i + 1) takeN).record)).toFinset
      = (db.filter (matchesWhere (buildFuzzyWhere q))).toFinset := by
  have htne : ¬ takeN = 0 := ht.ne'
  have hrec : (fun i => (svcPaginatedSearch db q (i + 1) takeN).record)
      = fun i =>
          (((db.filter (matchesWhere (buildFuzzyWhere q))).drop (i * takeN)).take takeN) := by
    funext i
    unfold svcPaginatedSearch ctrlPaginatedSearch findManyRows
    simp only [if_neg htne, if_neg (Nat.succ_ne_zero i), Nat.add_sub_cancel]
  have hpages : (svcPaginatedSearch db q 1 takeN).pages = jsCeilDiv db.length takeN := by
    unfold svcPaginatedSearch ctrlPaginatedSearch
    simp only [if_neg htne, if_neg (one_ne_zero)]
  rw [hrec, hpages,
    chunksJoin takeN (jsCeilDiv db.length takeN)
      (db.filter (matchesWhere (buildFuzzyWhere q)))
      (le_trans (List.length_filter_le _ _) (le_jsCeilDiv_mul _ _ ht))]

/-- C6 witness: the page union instantiated on the two-row table with
page size 1. -/
theorem paginatedSearch_pages_cover_witness :
    ((List.range (svcPaginatedSearch dbRows qTitle 1 1).pages).flatMap
        (fun i => (svcPaginatedSearch dbRows qTitle (i + 1) 1).record)).toFinset
      = (dbRows.filter (matchesWhere (buildFuzzyWhere qTitle))).toFinset :=
  paginatedSearch_pages_cover dbRows qTitle 1 (by decide)

end SoulBackend
